import Mathlib

/-!
Shallow embedding of the IPC publication core
(`aeron-driver/src/main/c/aeron_ipc_publication.c`) and of the replay-merge
controller surface (`aeron-archive/src/main/cpp/client/ReplayMerge.h`),
with theorems checking the natural-language specification against the code.

Machine integers are modelled as `Int`, with explicit two's-complement
wrapping (`int64wrap` / `int32wrap`) at the arithmetic operations where the
C code can overflow.  Memory effects (counter stores, frees, callbacks) are
modelled as explicit state updates and event lists.  A null pointer
argument is modelled as `Option.none`, and dereferencing it as `Option.none`
in the result.
-/

/-- INT64_MAX, the initial value of the min-subscriber scan and of
`end_of_stream_position`. -/
def INT64_MAX : Int := 2 ^ 63 - 1

/-- Two's-complement wrap of an `Int` to a signed 64-bit value; applied where
the C `int64_t` arithmetic can overflow. -/
def int64wrap (x : Int) : Int := (x + 2 ^ 63) % 2 ^ 64 - 2 ^ 63

/-- Two's-complement wrap of an `Int` to a signed 32-bit value. -/
def int32wrap (x : Int) : Int := (x + 2 ^ 31) % 2 ^ 32 - 2 ^ 31

/-- AERON_LOGBUFFER_PARTITION_COUNT: the log rotates over 3 term partitions. -/
def AERON_LOGBUFFER_PARTITION_COUNT : Nat := 3

/-- Modelled from the spec: `aeron_logbuffer_index_by_term_count` is declared
in a logbuffer header that is not part of this repository snapshot; per the
spec (§3) the active partition index is `termCount mod P` with P = 3. -/
def aeron_logbuffer_index_by_term_count (term_count : Int) : Nat :=
  (term_count % 3).toNat

/-- Modelled from the spec: `aeron_logbuffer_index_by_position` is declared in
a logbuffer header that is not part of this repository snapshot; per the spec
(§3) a position maps to partition `(position >> positionBitsToShift) mod P`
with `positionBitsToShift = log2(termLength)` and P = 3. -/
def aeron_logbuffer_index_by_position (position : Int) (bits : Nat) : Nat :=
  ((position / 2 ^ bits) % 3).toNat

/-- Tether lifecycle state of a subscriber position
(`aeron_subscription_tether_state_t`). -/
inductive aeron_subscription_tether_state where
  | ACTIVE
  | LINGER
  | RESTING
deriving DecidableEq, Repr

/-- One entry of a publication's subscribable set
(`aeron_tetherable_position_t`).  `value` models the 64-bit counter behind
`value_addr`. -/
structure aeron_tetherable_position where
  counter_id : Int
  value : Int
  subscription_registration_id : Int
  is_tether : Bool
  state : aeron_subscription_tether_state
  time_of_last_update_ns : Int
deriving DecidableEq, Repr

/-- Lifecycle state of an IPC publication (`aeron_ipc_publication_state_t`). -/
inductive aeron_ipc_publication_state where
  | ACTIVE
  | INACTIVE
  | LINGER
deriving DecidableEq, Repr

/-- The log-buffer metadata header (`aeron_logbuffer_metadata_t`), restricted
to the fields the C file under verification touches.  `term_tail_counters`
maps a partition index (0, 1, 2) to its packed 64-bit tail counter. -/
structure aeron_logbuffer_metadata where
  term_tail_counters : Nat → Int
  active_term_count : Int
  initial_term_id : Int
  mtu_length : Int
  term_length : Int
  page_size : Int
  correlation_id : Int
  is_connected : Int
  active_transport_count : Int
  end_of_stream_position : Int

/-- An IPC publication (`aeron_ipc_publication_t` together with its
conductor fields and the counter cells it points at).  `pub_lmt` and
`pub_pos` model the 64-bit counter values behind
`pub_lmt_position.value_addr` / `pub_pos_position.value_addr`;
`term_buffers i j` is byte `j` of term partition `i`. -/
structure aeron_ipc_publication where
  subscribable : List aeron_tetherable_position
  consumer_position : Int
  last_consumer_position : Int
  clean_position : Int
  trip_limit : Int
  time_of_last_consumer_position_change : Int
  state : aeron_ipc_publication_state
  refcnt : Int
  pub_lmt : Int
  pub_pos : Int
  pub_lmt_counter_id : Int
  pub_pos_counter_id : Int
  term_window_length : Int
  trip_gain : Int
  term_length : Nat
  position_bits_to_shift : Nat
  term_buffers : Nat → Nat → Int
  log_meta : aeron_logbuffer_metadata
  producer_position_val : Int
  session_id : Int
  stream_id : Int
  registration_id : Int

/-- Modelled from the spec: `aeron_ipc_publication_producer_position` is only
declared (extern) in this repository snapshot; per the spec it is the stream
position derived from the active term tail counter.  It is modelled as the
abstract state component `producer_position_val`, read at call time. -/
def aeron_ipc_publication_producer_position (publication : aeron_ipc_publication) : Int :=
  publication.producer_position_val

/-- Zeroes `len` bytes of a term buffer starting at byte `start`. -/
def zero_bytes (buf : Nat → Int) (start len : Nat) : Nat → Int :=
  fun j => if start ≤ j ∧ j < start + len then 0 else buf j

/-- The term offset of the current clean position:
`(size_t)(clean_position & (term_length - 1))` (line 250 of
`aeron_ipc_publication.c`). -/
def clean_term_offset (publication : aeron_ipc_publication) : Nat :=
  (Int.land publication.clean_position ((publication.term_length : Int) - 1)).toNat

/-- `aeron_ipc_publication_clean_buffer` (lines 242-264): zero term-buffer
bytes from `clean_position` up to `position`, capped at the end of the
containing term; bytes past the first 8 are cleared first, then the first
8 bytes are cleared with an ordered store; `clean_position` advances by the
number of bytes cleared.  (The C `size_t` subtraction `length - 8` would
wrap for `length < 8`; positions are frame-aligned in the driver so that
case does not arise and is modelled with truncated subtraction.) -/
def aeron_ipc_publication_clean_buffer
    (publication : aeron_ipc_publication) (position : Int) : aeron_ipc_publication :=
  let clean_position := publication.clean_position
  if position > clean_position then
    let dirty_index :=
      aeron_logbuffer_index_by_position clean_position publication.position_bits_to_shift
    let bytes_to_clean : Nat := (position - clean_position).toNat
    let term_length := publication.term_length
    let term_offset : Nat := clean_term_offset publication
    let bytes_left_in_term := term_length - term_offset
    let length := if bytes_to_clean < bytes_left_in_term then bytes_to_clean else bytes_left_in_term
    { publication with
      term_buffers := fun idx =>
        if idx = dirty_index then
          zero_bytes
            (zero_bytes (publication.term_buffers idx) (term_offset + 8) (length - 8))
            term_offset 8
        else publication.term_buffers idx,
      clean_position := clean_position + (length : Int) }
  else publication

/-- The subscriber scan of `aeron_ipc_publication_update_pub_lmt`
(lines 202-217): fold over the subscribable set, tracking
`(min_sub_pos, max_sub_pos)` over the non-RESTING subscribers, starting from
`(INT64_MAX, consumer_position)`. -/
def aeron_ipc_publication_scan_sub_pos (publication : aeron_ipc_publication) : Int × Int :=
  publication.subscribable.foldl
    (fun acc tp =>
      if tp.state ≠ aeron_subscription_tether_state.RESTING then
        (if tp.value < acc.1 then tp.value else acc.1,
         if tp.value > acc.2 then tp.value else acc.2)
      else acc)
    (INT64_MAX, publication.consumer_position)

/-- `aeron_ipc_publication_update_pub_lmt` (lines 195-240).  Returns the
updated publication and the work count.  Note the structure of the source:
an early `return 0` when the subscribable set is empty (line 197), then a
second test of the same `0 == length` condition after the scan (line 219),
then the window advance guarded by `proposed_limit > trip_limit`.  The
`int64_t` additions are wrapped. -/
def aeron_ipc_publication_update_pub_lmt
    (publication : aeron_ipc_publication) : aeron_ipc_publication × Int :=
  if publication.subscribable.length = 0 then
    (publication, 0)
  else
    let scan := aeron_ipc_publication_scan_sub_pos publication
    let min_sub_pos := scan.1
    let max_sub_pos := scan.2
    if publication.subscribable.length = 0 then
      ({ publication with pub_lmt := max_sub_pos, trip_limit := max_sub_pos }, 0)
    else
      let proposed_limit := int64wrap (min_sub_pos + publication.term_window_length)
      if proposed_limit > publication.trip_limit then
        let publication1 := aeron_ipc_publication_clean_buffer publication min_sub_pos
        ({ publication1 with
            pub_lmt := proposed_limit,
            trip_limit := int64wrap (proposed_limit + publication1.trip_gain),
            consumer_position := max_sub_pos }, 1)
      else
        ({ publication with consumer_position := max_sub_pos }, 0)

/-- `aeron_ipc_publication_decref` (lines 402-419): decrement the (int32)
reference count; exactly when the decremented count equals 0, set the state
to INACTIVE, clamp `pub_lmt` down to the producer position when it exceeds
it, and ordered-store the producer position into `end_of_stream_position`. -/
def aeron_ipc_publication_decref (publication : aeron_ipc_publication) : aeron_ipc_publication :=
  let ref_count := int32wrap (publication.refcnt - 1)
  let publication1 := { publication with refcnt := ref_count }
  if ref_count = 0 then
    let publication2 :=
      { publication1 with state := aeron_ipc_publication_state.INACTIVE }
    let producer_position := aeron_ipc_publication_producer_position publication2
    let publication3 :=
      if publication2.pub_lmt > producer_position then
        { publication2 with pub_lmt := producer_position }
      else publication2
    { publication3 with
      log_meta := { publication3.log_meta with end_of_stream_position := producer_position } }
  else publication1

/-- `aeron_ipc_publication_incref` (lines 396-400). -/
def aeron_ipc_publication_incref (publication : aeron_ipc_publication) : aeron_ipc_publication :=
  { publication with refcnt := int32wrap (publication.refcnt + 1) }

/-- The driver-context timeouts read by
`aeron_ipc_publication_check_untethered_subscriptions`. -/
structure aeron_driver_context where
  untethered_window_limit_timeout_ns : Int
  untethered_resting_timeout_ns : Int
deriving DecidableEq, Repr

/-- Conductor callbacks emitted by the publication
(`aeron_driver_conductor_on_unavailable_image` /
`aeron_driver_conductor_on_available_image`). -/
inductive conductor_event where
  | on_unavailable_image (pub_registration_id subscription_registration_id stream_id : Int)
  | on_available_image
      (pub_registration_id stream_id session_id counter_id subscription_registration_id : Int)
deriving DecidableEq, Repr

/-- `aeron_ipc_publication_check_untethered_subscriptions` (lines 266-338):
for each tethered subscriber refresh its update time; for each untethered
subscriber run the ACTIVE / LINGER / RESTING state machine against
`untethered_window_limit = (consumer_position - term_window_length)
 + term_window_length / 8`.  Returns the updated publication and the list of
conductor callbacks emitted, in order. -/
def aeron_ipc_publication_check_untethered_subscriptions
    (context : aeron_driver_context) (publication : aeron_ipc_publication)
    (now_ns : Int) : aeron_ipc_publication × List conductor_event :=
  let consumer_position := publication.consumer_position
  let term_window_length := publication.term_window_length
  let untethered_window_limit := (consumer_position - term_window_length) + term_window_length / 8
  let results := publication.subscribable.map (fun tp =>
    if tp.is_tether then
      ({ tp with time_of_last_update_ns := now_ns }, ([] : List conductor_event))
    else
      let window_limit_timeout_ns := context.untethered_window_limit_timeout_ns
      let resting_timeout_ns := context.untethered_resting_timeout_ns
      match tp.state with
      | aeron_subscription_tether_state.ACTIVE =>
        if tp.value > untethered_window_limit then
          ({ tp with time_of_last_update_ns := now_ns }, [])
        else if now_ns > tp.time_of_last_update_ns + window_limit_timeout_ns then
          ({ tp with
              state := aeron_subscription_tether_state.LINGER,
              time_of_last_update_ns := now_ns },
           [conductor_event.on_unavailable_image publication.registration_id
              tp.subscription_registration_id publication.stream_id])
        else (tp, [])
      | aeron_subscription_tether_state.LINGER =>
        if now_ns > tp.time_of_last_update_ns + window_limit_timeout_ns then
          ({ tp with
              state := aeron_subscription_tether_state.RESTING,
              time_of_last_update_ns := now_ns }, [])
        else (tp, [])
      | aeron_subscription_tether_state.RESTING =>
        if now_ns > tp.time_of_last_update_ns + resting_timeout_ns then
          ({ tp with
              value := consumer_position,
              state := aeron_subscription_tether_state.ACTIVE,
              time_of_last_update_ns := now_ns },
           [conductor_event.on_available_image publication.registration_id
              publication.stream_id publication.session_id tp.counter_id
              tp.subscription_registration_id])
        else (tp, []))
  ({ publication with subscribable := results.map Prod.fst },
   (results.map Prod.snd).flatten)

/-- Resource-release effects of `aeron_ipc_publication_close`, in program
order. -/
inductive close_effect where
  | free_counter (counter_id : Int)
  | free_subscriber_array
  | unmap_raw_log
  | free_log_file_name
  | free_publication
deriving DecidableEq, Repr

/-- `aeron_ipc_publication_close` (lines 173-193).  The argument is an
optional publication (`none` models a null pointer); the result is `none`
when the code dereferences a null pointer, otherwise the ordered list of
release effects.  Source order: free the `pub_lmt` and `pub_pos` counters
and every subscriber counter and the subscriber array by reading through
`publication` (lines 175-184), *then* test `NULL != publication` to guard
the raw-log unmap and file-name free (lines 186-190), then free the
structure (line 192). -/
def aeron_ipc_publication_close
    (publication : Option aeron_ipc_publication) : Option (List close_effect) :=
  match publication with
  | Option.none => Option.none
  | Option.some pub =>
    let head_effects :=
      [close_effect.free_counter pub.pub_lmt_counter_id,
       close_effect.free_counter pub.pub_pos_counter_id]
      ++ pub.subscribable.map (fun tp => close_effect.free_counter tp.counter_id)
      ++ [close_effect.free_subscriber_array]
    let guarded_effects :=
      if publication.isSome then
        [close_effect.unmap_raw_log, close_effect.free_log_file_name]
      else []
    Option.some (head_effects ++ guarded_effects ++ [close_effect.free_publication])

/-- The publication parameters consumed by the metadata initialization of
`aeron_ipc_publication_create` (`aeron_uri_publication_params_t`). -/
structure aeron_uri_publication_params where
  term_length : Int
  mtu_length : Int
  is_replay : Bool
  term_id : Int
  term_offset : Int
deriving DecidableEq, Repr

/-- Pointwise update of a tail-counter array. -/
def upd_tail (f : Nat → Int) (i : Nat) (v : Int) : Nat → Int :=
  fun j => if j = i then v else f j

/-- The log-metadata initialization performed by
`aeron_ipc_publication_create` (lines 89-127), applied to the metadata
`meta0` of the freshly mapped raw log.  In replay mode (lines 89-106) the
tail counter of the active partition gets `(term_id << 32) | term_offset`
and `active_term_count` gets `term_id - initial_term_id`; otherwise
(lines 107-117) tails are seeded from `initial_term_id` and
`active_term_count` gets 0.  Afterwards (lines 119-127) the remaining
metadata fields are assigned, starting with the unconditional
`active_term_count = 0` on line 119. -/
def aeron_ipc_publication_create_log_meta
    (meta0 : aeron_logbuffer_metadata) (params : aeron_uri_publication_params)
    (initial_term_id : Int) (registration_id : Int) (file_page_size : Int) :
    aeron_logbuffer_metadata :=
  let meta1 :=
    if params.is_replay then
      let term_id : Int := params.term_id
      let term_count : Int := params.term_id - initial_term_id
      let active_index := aeron_logbuffer_index_by_term_count term_count
      let tail0 := upd_tail meta0.term_tail_counters active_index
        (Int.lor (term_id * 2 ^ 32) params.term_offset)
      let loop := [1, 2].foldl
        (fun (s : (Nat → Int) × Nat) (i : Nat) =>
          let expected_term_id := (term_id + (i : Int)) - (AERON_LOGBUFFER_PARTITION_COUNT : Int)
          let next_index := (s.2 + 1) % AERON_LOGBUFFER_PARTITION_COUNT
          (upd_tail s.1 next_index (expected_term_id * 2 ^ 32), next_index))
        (tail0, active_index)
      { meta0 with term_tail_counters := loop.1, active_term_count := term_count }
    else
      let tail0 := upd_tail meta0.term_tail_counters 0 (initial_term_id * 2 ^ 32)
      let tail := [1, 2].foldl
        (fun (t : Nat → Int) (i : Nat) =>
          let expected_term_id :=
            (initial_term_id + (i : Int)) - (AERON_LOGBUFFER_PARTITION_COUNT : Int)
          upd_tail t i (expected_term_id * 2 ^ 32))
        tail0
      { meta0 with term_tail_counters := tail, active_term_count := 0 }
  { meta1 with
    active_term_count := 0,
    initial_term_id := initial_term_id,
    mtu_length := params.mtu_length,
    term_length := params.term_length,
    page_size := file_page_size,
    correlation_id := registration_id,
    is_connected := 0,
    active_transport_count := 0,
    end_of_stream_position := INT64_MAX }

/-- `ReplayMerge::State` (ReplayMerge.h lines 144-153). -/
inductive RMState where
  | GET_RECORDING_POSITION
  | REPLAY
  | CATCHUP
  | ATTEMPT_LIVE_JOIN
  | STOP_REPLAY
  | MERGED
  | CLOSED
deriving DecidableEq, Repr

/-- The slice of an `Image` that ReplayMerge.h reads. -/
structure RMImage where
  activeTransportCount : Int
deriving DecidableEq, Repr

/-- The mutable fields of a `ReplayMerge` (ReplayMerge.h lines 163-169);
`m_image = none` models a null `shared_ptr`. -/
structure ReplayMergeData where
  m_state : RMState
  m_image : Option RMImage
  m_activeCorrelationId : Int
  m_nextTargetPosition : Int
  m_replaySessionId : Int
  m_isLiveAdded : Bool
  m_isReplayActive : Bool
deriving DecidableEq, Repr

/-- The five per-state work functions dispatched by `ReplayMerge::doWork`.
They are declared in ReplayMerge.h (lines 189-193) but defined in a source
file outside this repository snapshot, so they are abstract parameters of
the model: each maps the controller state to a new state and a work count. -/
structure ReplayMergeHandlers where
  getRecordingPosition : ReplayMergeData → ReplayMergeData × Int
  replay : ReplayMergeData → ReplayMergeData × Int
  catchup : ReplayMergeData → ReplayMergeData × Int
  attemptLiveJoin : ReplayMergeData → ReplayMergeData × Int
  stopReplay : ReplayMergeData → ReplayMergeData × Int

/-- `ReplayMerge::doWork` (ReplayMerge.h lines 65-96): dispatch on `m_state`;
MERGED and CLOSED fall into the default branch and do nothing. -/
def ReplayMergeDoWork (h : ReplayMergeHandlers) (s : ReplayMergeData) :
    ReplayMergeData × Int :=
  match s.m_state with
  | RMState.GET_RECORDING_POSITION => h.getRecordingPosition s
  | RMState.REPLAY => h.replay s
  | RMState.CATCHUP => h.catchup s
  | RMState.ATTEMPT_LIVE_JOIN => h.attemptLiveJoin s
  | RMState.STOP_REPLAY => h.stopReplay s
  | RMState.MERGED => (s, 0)
  | RMState.CLOSED => (s, 0)

/-- Observable events of one `ReplayMerge::poll` call, in order. -/
inductive PollEvent where
  | didWork
  | fragment
deriving DecidableEq, Repr

/-- `ReplayMerge::poll` (ReplayMerge.h lines 106-111):
`doWork(); return nullptr == m_image ? 0 : m_image->poll(handler, limit);`.
`imagePoll img limit` is the abstract `Image::poll`, returning the number of
fragments it hands to the handler.  The result is the new controller state,
the fragment count returned, and the ordered event trace of the call. -/
def ReplayMergePoll (h : ReplayMergeHandlers) (imagePoll : RMImage → Int → Nat)
    (s : ReplayMergeData) (fragmentLimit : Int) :
    ReplayMergeData × Nat × List PollEvent :=
  let s1 := (ReplayMergeDoWork h s).1
  match s1.m_image with
  | Option.none => (s1, 0, [PollEvent.didWork])
  | Option.some img =>
    let n := imagePoll img fragmentLimit
    (s1, n, PollEvent.didWork :: List.replicate n PollEvent.fragment)

/-- `REPLAY_MERGE_REPLAY_REMOVE_THRESHOLD` (ReplayMerge.h line 24). -/
def REPLAY_MERGE_REPLAY_REMOVE_THRESHOLD : Int := 0

/-- `ReplayMerge::shouldStopAndRemoveReplay` (ReplayMerge.h lines 182-187):
`m_isLiveAdded && (m_nextTargetPosition - position) <= threshold &&
 m_image->activeTransportCount() >= 2`, with C++ short-circuit evaluation:
the image is dereferenced (`none` result on a null image) only when the
first two conjuncts hold. -/
def shouldStopAndRemoveReplay (s : ReplayMergeData) (position : Int) : Option Bool :=
  if s.m_isLiveAdded = false then Option.some false
  else if ¬(s.m_nextTargetPosition - position ≤ REPLAY_MERGE_REPLAY_REMOVE_THRESHOLD) then
    Option.some false
  else
    match s.m_image with
    | Option.none => Option.none
    | Option.some img => Option.some (decide (img.activeTransportCount ≥ 2))

/-! Concrete states used to instantiate the theorems below. -/

/-- A zeroed log-metadata block, as mapped before initialization. -/
def zeroMeta : aeron_logbuffer_metadata :=
  { term_tail_counters := fun _ => 0,
    active_term_count := 0,
    initial_term_id := 0,
    mtu_length := 0,
    term_length := 0,
    page_size := 0,
    correlation_id := 0,
    is_connected := 0,
    active_transport_count := 0,
    end_of_stream_position := 0 }

/-- A freshly created publication with no subscribers:
`termWindowLength = 1024`, `tripGain = 128`, `termLength = 65536`,
positions and the trip limit at 0, reference count 1, state ACTIVE. -/
def basePub : aeron_ipc_publication :=
  { subscribable := [],
    consumer_position := 0,
    last_consumer_position := 0,
    clean_position := 0,
    trip_limit := 0,
    time_of_last_consumer_position_change := 0,
    state := aeron_ipc_publication_state.ACTIVE,
    refcnt := 1,
    pub_lmt := 0,
    pub_pos := 0,
    pub_lmt_counter_id := 1,
    pub_pos_counter_id := 2,
    term_window_length := 1024,
    trip_gain := 128,
    term_length := 65536,
    position_bits_to_shift := 16,
    term_buffers := fun _ _ => 0,
    log_meta := zeroMeta,
    producer_position_val := 0,
    session_id := 7,
    stream_id := 10,
    registration_id := 77 }

/-- An untethered subscriber position in state RESTING. -/
def restingTp : aeron_tetherable_position :=
  { counter_id := 3,
    value := 5,
    subscription_registration_id := 100,
    is_tether := false,
    state := aeron_subscription_tether_state.RESTING,
    time_of_last_update_ns := 0 }

/-- A publication whose only subscriber is RESTING, with `pubLmt = 42` and
`tripLimit = 7` left over from earlier activity. -/
def allRestingPub : aeron_ipc_publication :=
  { basePub with subscribable := [restingTp], pub_lmt := 42, trip_limit := 7 }

/-- Replay-init parameters: `termId = 3`, `termOffset = 96`. -/
def replayParams : aeron_uri_publication_params :=
  { term_length := 65536,
    mtu_length := 1408,
    is_replay := true,
    term_id := 3,
    term_offset := 96 }

/-- A tethered ACTIVE subscriber at position 0. -/
def tetheredTp : aeron_tetherable_position :=
  { counter_id := 4,
    value := 0,
    subscription_registration_id := 101,
    is_tether := true,
    state := aeron_subscription_tether_state.ACTIVE,
    time_of_last_update_ns := 0 }

/-- The spec's single-tethered-subscriber scenario: subscriber at position 0,
`termWindowLength = 1024`, `tripGain = 128`, `tripLimit = 0`. -/
def windowPub : aeron_ipc_publication :=
  { basePub with subscribable := [tetheredTp] }

/-- Driver-context timeouts used in the untethered-subscription scenarios. -/
def exampleContext : aeron_driver_context :=
  { untethered_window_limit_timeout_ns := 10,
    untethered_resting_timeout_ns := 10 }

/-- An untethered ACTIVE subscriber positioned exactly at the untethered
window limit `consumerPosition - termWindowLength + termWindowLength/8
= 4096 - 1024 + 128 = 3200`. -/
def boundaryTp : aeron_tetherable_position :=
  { counter_id := 5,
    value := 3200,
    subscription_registration_id := 102,
    is_tether := false,
    state := aeron_subscription_tether_state.ACTIVE,
    time_of_last_update_ns := 0 }

/-- Publication with consumer position 4096 and the boundary subscriber. -/
def boundaryPub : aeron_ipc_publication :=
  { basePub with subscribable := [boundaryTp], consumer_position := 4096 }

/-- The boundary subscriber moved one byte past the window limit. -/
def aboveWindowTp : aeron_tetherable_position := { boundaryTp with value := 3201 }

/-- Publication with consumer position 4096 and the strictly-inside
subscriber. -/
def abovePub : aeron_ipc_publication :=
  { basePub with subscribable := [aboveWindowTp], consumer_position := 4096 }

/-- Publication about to be released: `refCount = 1`, `pubLmt = 20000`,
producer position 10000 (the spec's decref scenario). -/
def decrefPub : aeron_ipc_publication :=
  { basePub with refcnt := 1, pub_lmt := 20000, producer_position_val := 10000 }

/-- A publication whose reference count has already reached 0. -/
def zeroRefPub : aeron_ipc_publication := { basePub with refcnt := 0 }

/-- A small publication for the cleaning scenarios: `termLength = 64`
(so `positionBitsToShift = 6`), all term-buffer bytes 1, clean position 0. -/
def smallTermPub : aeron_ipc_publication :=
  { basePub with
    term_length := 64,
    position_bits_to_shift := 6,
    term_buffers := fun _ _ => 1,
    clean_position := 0 }

/-- Replay-merge work handlers that do nothing, for instantiating the
polling contract. -/
def idleHandlers : ReplayMergeHandlers :=
  { getRecordingPosition := fun s => (s, 0),
    replay := fun s => (s, 0),
    catchup := fun s => (s, 0),
    attemptLiveJoin := fun s => (s, 0),
    stopReplay := fun s => (s, 0) }

/-- An image poll that consumes nothing. -/
def idleImagePoll : RMImage → Int → Nat := fun _ _ => 0

/-- A freshly constructed replay-merge controller (ReplayMerge.h
lines 163-169): state GET_RECORDING_POSITION, no image, live not added. -/
def freshMerge : ReplayMergeData :=
  { m_state := RMState.GET_RECORDING_POSITION,
    m_image := Option.none,
    m_activeCorrelationId := -1,
    m_nextTargetPosition := -1,
    m_replaySessionId := -1,
    m_isLiveAdded := false,
    m_isReplayActive := false }

/-- A merge controller in ATTEMPT_LIVE_JOIN with the live destination added,
target position reached, but only one active transport on the image. -/
def oneTransportMerge : ReplayMergeData :=
  { freshMerge with
    m_state := RMState.ATTEMPT_LIVE_JOIN,
    m_image := Option.some { activeTransportCount := 1 },
    m_nextTargetPosition := 10050,
    m_isLiveAdded := true }

/-! Helper lemmas shared by the claim theorems. -/

/-- `int32wrap` is the identity on values representable in 32 bits. -/
theorem int32wrap_eq_self (x : Int) (h1 : -(2 ^ 31) ≤ x) (h2 : x < 2 ^ 31) :
    int32wrap x = x := by
  unfold int32wrap
  rw [Int.emod_eq_of_lt (by omega) (by omega)]
  omega

/-- Decrementing a representable non-positive int32 reference count never
lands on 0. -/
theorem int32wrap_decrement_ne_zero (r : Int) (h1 : -(2 ^ 31) ≤ r) (h2 : r ≤ 0) :
    int32wrap (r - 1) ≠ 0 := by
  by_cases h : r = -(2 ^ 31)
  · subst h; decide
  · have hx := int32wrap_eq_self (r - 1) (by omega) (by omega)
    omega

/-- A decref whose decremented count is non-zero only stores the new count. -/
theorem decref_of_count_ne_zero (publication : aeron_ipc_publication)
    (h : int32wrap (publication.refcnt - 1) ≠ 0) :
    aeron_ipc_publication_decref publication =
      { publication with refcnt := int32wrap (publication.refcnt - 1) } := by
  simp only [aeron_ipc_publication_decref]
  rw [if_neg h]

/-- `clean_buffer` never changes the trip gain. -/
theorem clean_buffer_trip_gain (publication : aeron_ipc_publication) (position : Int) :
    (aeron_ipc_publication_clean_buffer publication position).trip_gain =
      publication.trip_gain := by
  simp only [aeron_ipc_publication_clean_buffer]
  split <;> rfl

/-- `clean_buffer` at or below the current clean position does nothing. -/
theorem clean_buffer_no_op (publication : aeron_ipc_publication) (position : Int)
    (h : ¬ position > publication.clean_position) :
    aeron_ipc_publication_clean_buffer publication position = publication := by
  simp only [aeron_ipc_publication_clean_buffer]
  rw [if_neg h]

/-- When the bytes to clean fit inside the containing term, `clean_buffer`
advances the clean position exactly to the requested position. -/
theorem clean_buffer_clean_position_within (publication : aeron_ipc_publication)
    (position : Int)
    (hgt : position > publication.clean_position)
    (h : position ≤ publication.clean_position +
      ((publication.term_length - clean_term_offset publication : Nat) : Int)) :
    (aeron_ipc_publication_clean_buffer publication position).clean_position = position := by
  simp only [aeron_ipc_publication_clean_buffer, hgt, if_true]
  split <;> omega

/-! Claim theorems. -/

/-- Claim C1 (code bug): for a publication whose subscribable set is
non-empty and all of whose subscribers are RESTING, `updatePubLmt` is
claimed to store `pubLmt = maxSubPos` and set `tripLimit = maxSubPos`,
returning 0.  The code cannot do this: the all-resting branch (line 219)
re-tests `0 == subscribable.length` after line 197 already returned on that
condition, so it is unreachable; instead `proposedLimit` is computed from
`min_sub_pos = INT64_MAX` (wrapping negative) and the publication limit and
trip limit are left frozen.  Here `maxSubPos = consumerPosition = 0`, yet
`pubLmt` stays 42 and `tripLimit` stays 7. -/
theorem update_pub_lmt_all_resting_frozen :
    (aeron_ipc_publication_update_pub_lmt allRestingPub).2 = 0 ∧
    (aeron_ipc_publication_update_pub_lmt allRestingPub).1.pub_lmt = 42 ∧
    (aeron_ipc_publication_update_pub_lmt allRestingPub).1.trip_limit = 7 ∧
    allRestingPub.consumer_position = 0 := by decide

/-- Claim C2 (code bug): after a replay-init create with
`initialTermId = 2`, `termId = 3`, `termOffset = 96`, the tail counter at
the replay's active partition index does equal `(termId << 32) | termOffset`,
but the final `activeTermCount` is 0, not `termId - initialTermId = 1`: the
unconditional `active_term_count = 0` on line 119 overwrites the value the
replay branch stored on line 105. -/
theorem create_replay_active_term_count_clobbered :
    (aeron_ipc_publication_create_log_meta zeroMeta replayParams 2 99 4096).active_term_count
      = 0 ∧
    replayParams.term_id - 2 = 1 ∧
    (aeron_ipc_publication_create_log_meta zeroMeta replayParams 2 99 4096).term_tail_counters
        (aeron_logbuffer_index_by_term_count (replayParams.term_id - 2)) =
      Int.lor (replayParams.term_id * 2 ^ 32) replayParams.term_offset := by decide

/-- Claim C3 counterexample: `close` with a null publication is not a no-op
that performs no frees: the function dereferences the publication (to free
the `pubLmt`/`pubPos` counters and the subscriber counters) before its null
check, so on a null input it crashes (modelled as `none`) instead of
completing with an empty effect list. -/
theorem close_null_not_noop :
    aeron_ipc_publication_close Option.none ≠ Option.some [] := by decide

/-- Claim C3 (amended): `close` reads through the publication pointer before
its null check, so a null publication is dereferenced (modelled `none`)
rather than treated as a no-op; on a non-null publication it frees the
`pubLmt` and `pubPos` counters, each subscriber counter and the subscriber
array, then - under the (late) null check - unmaps the raw log and frees
the log file name, and finally frees the structure. -/
theorem close_derefs_before_null_check :
    aeron_ipc_publication_close Option.none = Option.none ∧
    ∀ pub : aeron_ipc_publication,
      aeron_ipc_publication_close (Option.some pub) =
        Option.some
          ([close_effect.free_counter pub.pub_lmt_counter_id,
            close_effect.free_counter pub.pub_pos_counter_id]
           ++ pub.subscribable.map (fun tp => close_effect.free_counter tp.counter_id)
           ++ [close_effect.free_subscriber_array,
               close_effect.unmap_raw_log,
               close_effect.free_log_file_name,
               close_effect.free_publication]) := by
  constructor
  · rfl
  · intro pub
    simp [aeron_ipc_publication_close]

/-- Claim C10: a `decref` on a publication whose reference count is already
0 or negative only decrements the count; the lifecycle state, `pubLmt` and
`endOfStreamPosition` are untouched because the INACTIVE-transition block
runs only when the decremented count is exactly 0. -/
theorem decref_nonpositive_only_decrements (publication : aeron_ipc_publication)
    (h1 : publication.refcnt ≤ 0) (h2 : -(2 ^ 31) ≤ publication.refcnt) :
    aeron_ipc_publication_decref publication =
      { publication with refcnt := int32wrap (publication.refcnt - 1) } :=
  decref_of_count_ne_zero publication
    (int32wrap_decrement_ne_zero publication.refcnt h2 h1)

/-- Witness for C10 at `refCount = 0`: decref leaves everything but the
count unchanged and the count becomes -1. -/
theorem decref_nonpositive_only_decrements_witness :
    zeroRefPub.refcnt ≤ 0 ∧ -(2 ^ 31) ≤ zeroRefPub.refcnt ∧
    int32wrap (zeroRefPub.refcnt - 1) = -1 ∧
    aeron_ipc_publication_decref zeroRefPub =
      { zeroRefPub with refcnt := int32wrap (zeroRefPub.refcnt - 1) } :=
  ⟨by decide, by decide, by decide,
    decref_nonpositive_only_decrements zeroRefPub (by decide) (by decide)⟩

/-- Claim C5: the single `decref` that takes the reference count from 1 to 0
sets the state to INACTIVE, stores `pubLmt` down to the producer position
exactly when `pubLmt` exceeds it, and stores `endOfStreamPosition =
producerPosition` (the producer position at that moment); a subsequent
`decref` changes neither the state nor `endOfStreamPosition` again, so the
transition and the end-of-stream write happen exactly once. -/
theorem decref_to_zero_inactive (publication : aeron_ipc_publication)
    (h : publication.refcnt = 1) :
    (aeron_ipc_publication_decref publication).refcnt = 0 ∧
    (aeron_ipc_publication_decref publication).state =
      aeron_ipc_publication_state.INACTIVE ∧
    (aeron_ipc_publication_decref publication).log_meta.end_of_stream_position =
      publication.producer_position_val ∧
    (aeron_ipc_publication_decref publication).pub_lmt =
      (if publication.pub_lmt > publication.producer_position_val
       then publication.producer_position_val else publication.pub_lmt) ∧
    (aeron_ipc_publication_decref (aeron_ipc_publication_decref publication)).state =
      aeron_ipc_publication_state.INACTIVE ∧
    (aeron_ipc_publication_decref
        (aeron_ipc_publication_decref publication)).log_meta.end_of_stream_position =
      publication.producer_position_val := by
  have h0 : int32wrap (publication.refcnt - 1) = 0 := by rw [h]; decide
  have e1 : aeron_ipc_publication_decref publication =
      { publication with
        refcnt := 0,
        state := aeron_ipc_publication_state.INACTIVE,
        pub_lmt := if publication.pub_lmt > publication.producer_position_val
                   then publication.producer_position_val else publication.pub_lmt,
        log_meta := { publication.log_meta with
          end_of_stream_position := publication.producer_position_val } } := by
    simp only [aeron_ipc_publication_decref, aeron_ipc_publication_producer_position, h0,
      if_true]
    split <;> rfl
  have hr : (aeron_ipc_publication_decref publication).refcnt = 0 := by rw [e1]
  have hne2 : int32wrap ((aeron_ipc_publication_decref publication).refcnt - 1) ≠ 0 := by
    rw [hr]; decide
  have e2 := decref_of_count_ne_zero (aeron_ipc_publication_decref publication) hne2
  refine ⟨hr, by rw [e1], by rw [e1], by rw [e1], ?_, ?_⟩
  · rw [e2]; rw [e1]
  · rw [e2]; rw [e1]

/-- Witness for C5 at the spec's decref scenario: `refCount = 1`,
`producerPosition = 10000`, `pubLmt = 20000`; after decref the state is
INACTIVE, `pubLmt` is clamped to 10000 and `endOfStreamPosition = 10000`. -/
theorem decref_to_zero_inactive_witness :
    decrefPub.refcnt = 1 ∧
    (aeron_ipc_publication_decref decrefPub).state =
      aeron_ipc_publication_state.INACTIVE ∧
    (aeron_ipc_publication_decref decrefPub).log_meta.end_of_stream_position = 10000 ∧
    (aeron_ipc_publication_decref decrefPub).pub_lmt = 10000 := by
  have h := decref_to_zero_inactive decrefPub (by decide)
  exact ⟨by decide, h.2.1, h.2.2.1.trans (by decide), h.2.2.2.1.trans (by decide)⟩

/-- Claim C6: when at least one subscriber is not RESTING and the proposed
limit `minSubPos + termWindowLength` exceeds the trip limit, `updatePubLmt`
cleans the buffer up to `minSubPos`, stores `pubLmt = proposedLimit`, sets
`tripLimit = proposedLimit + tripGain`, updates the consumer position to
`maxSubPos`, and returns work count 1.  (`minSubPos`/`maxSubPos` are the
results of the subscriber scan `aeron_ipc_publication_scan_sub_pos`.) -/
theorem update_pub_lmt_advances_window (publication : aeron_ipc_publication)
    (hne : ¬ publication.subscribable.length = 0)
    (hactive : ∃ tp ∈ publication.subscribable,
      tp.state ≠ aeron_subscription_tether_state.RESTING)
    (hlim : int64wrap ((aeron_ipc_publication_scan_sub_pos publication).1 +
      publication.term_window_length) > publication.trip_limit) :
    (aeron_ipc_publication_update_pub_lmt publication).2 = 1 ∧
    (aeron_ipc_publication_update_pub_lmt publication).1.pub_lmt =
      int64wrap ((aeron_ipc_publication_scan_sub_pos publication).1 +
        publication.term_window_length) ∧
    (aeron_ipc_publication_update_pub_lmt publication).1.trip_limit =
      int64wrap (int64wrap ((aeron_ipc_publication_scan_sub_pos publication).1 +
        publication.term_window_length) + publication.trip_gain) ∧
    (aeron_ipc_publication_update_pub_lmt publication).1.consumer_position =
      (aeron_ipc_publication_scan_sub_pos publication).2 ∧
    (aeron_ipc_publication_update_pub_lmt publication).1.clean_position =
      (aeron_ipc_publication_clean_buffer publication
        (aeron_ipc_publication_scan_sub_pos publication).1).clean_position ∧
    (aeron_ipc_publication_update_pub_lmt publication).1.term_buffers =
      (aeron_ipc_publication_clean_buffer publication
        (aeron_ipc_publication_scan_sub_pos publication).1).term_buffers := by
  simp only [aeron_ipc_publication_update_pub_lmt]
  rw [if_neg hne, if_neg hne, if_pos hlim]
  refine ⟨rfl, rfl, ?_, rfl, rfl, rfl⟩
  rw [clean_buffer_trip_gain]

/-- Witness for C6 at the spec's scenario: one tethered subscriber at
position 0, `termWindowLength = 1024`, `tripGain = 128`, `tripLimit = 0`;
the call yields `pubLmt = 1024`, `tripLimit = 1152` and work count 1. -/
theorem update_pub_lmt_advances_window_witness :
    ¬ windowPub.subscribable.length = 0 ∧
    (∃ tp ∈ windowPub.subscribable,
      tp.state ≠ aeron_subscription_tether_state.RESTING) ∧
    int64wrap ((aeron_ipc_publication_scan_sub_pos windowPub).1 +
      windowPub.term_window_length) > windowPub.trip_limit ∧
    (aeron_ipc_publication_update_pub_lmt windowPub).1.pub_lmt = 1024 ∧
    (aeron_ipc_publication_update_pub_lmt windowPub).1.trip_limit = 1152 ∧
    (aeron_ipc_publication_update_pub_lmt windowPub).2 = 1 := by
  have h := update_pub_lmt_advances_window windowPub (by decide)
    ⟨tetheredTp, by decide, by decide⟩ (by decide)
  exact ⟨by decide, ⟨tetheredTp, by decide, by decide⟩, by decide,
    h.2.1.trans (by decide), h.2.2.1.trans (by decide), h.1⟩

/-- Claim C4 counterexample: an untethered ACTIVE subscriber whose position
is exactly `consumerPosition - termWindowLength + tripGain`
(= 4096 - 1024 + 128 = 3200) does not stay ACTIVE: the refresh condition of
the code is the strict `position > untethered_window_limit`, so once the
window-limit timeout (10 ns here) has elapsed (now = 20) the subscriber
transitions to LINGER. -/
theorem check_untethered_boundary_counterexample :
    boundaryPub.subscribable.map (fun tp => tp.value) = [3200] ∧
    (3200 : Int) = boundaryPub.consumer_position - boundaryPub.term_window_length +
      boundaryPub.term_window_length / 8 ∧
    (aeron_ipc_publication_check_untethered_subscriptions exampleContext
        boundaryPub 20).1.subscribable.map (fun tp => tp.state) =
      [aeron_subscription_tether_state.LINGER] := by decide

/-- Claim C4 (amended): for an untethered ACTIVE subscriber, the update time
is refreshed (and the subscriber stays ACTIVE forever) exactly when its
position is strictly greater than
`consumerPosition - termWindowLength + termWindowLength/8`; a subscriber at
exactly that limit - like one a byte below it - transitions to LINGER with
an unavailable-image callback once the window-limit timeout elapses. -/
theorem check_untethered_active_window (context : aeron_driver_context)
    (publication : aeron_ipc_publication) (tp : aeron_tetherable_position)
    (now_ns : Int)
    (hsub : publication.subscribable = [tp])
    (ht : tp.is_tether = false)
    (hs : tp.state = aeron_subscription_tether_state.ACTIVE) :
    (tp.value > publication.consumer_position - publication.term_window_length +
        publication.term_window_length / 8 →
      (aeron_ipc_publication_check_untethered_subscriptions context publication
          now_ns).1.subscribable = [{ tp with time_of_last_update_ns := now_ns }] ∧
      (aeron_ipc_publication_check_untethered_subscriptions context publication
          now_ns).2 = []) ∧
    (tp.value ≤ publication.consumer_position - publication.term_window_length +
        publication.term_window_length / 8 →
     now_ns > tp.time_of_last_update_ns + context.untethered_window_limit_timeout_ns →
      (aeron_ipc_publication_check_untethered_subscriptions context publication
          now_ns).1.subscribable =
        [{ tp with state := aeron_subscription_tether_state.LINGER,
                   time_of_last_update_ns := now_ns }] ∧
      (aeron_ipc_publication_check_untethered_subscriptions context publication
          now_ns).2 =
        [conductor_event.on_unavailable_image publication.registration_id
          tp.subscription_registration_id publication.stream_id]) := by
  constructor
  · intro hgt
    simp only [aeron_ipc_publication_check_untethered_subscriptions, hsub,
      List.map_cons, List.map_nil, ht, hs, Bool.false_eq_true, if_false,
      hgt, if_true, List.flatten]
    exact ⟨trivial, rfl⟩
  · intro hle htime
    have hnot : ¬ tp.value > publication.consumer_position -
        publication.term_window_length + publication.term_window_length / 8 :=
      not_lt.mpr hle
    simp only [aeron_ipc_publication_check_untethered_subscriptions, hsub,
      List.map_cons, List.map_nil, ht, hs, Bool.false_eq_true, if_false,
      hnot, htime, if_true, List.flatten]
    exact ⟨trivial, rfl⟩

/-- Witness for C4 at a subscriber one byte above the limit (3201 > 3200):
the update time is refreshed and no callback is emitted. -/
theorem check_untethered_active_window_witness :
    abovePub.subscribable = [aboveWindowTp] ∧
    aboveWindowTp.is_tether = false ∧
    aboveWindowTp.state = aeron_subscription_tether_state.ACTIVE ∧
    aboveWindowTp.value > abovePub.consumer_position - abovePub.term_window_length +
      abovePub.term_window_length / 8 ∧
    (aeron_ipc_publication_check_untethered_subscriptions exampleContext
        abovePub 20).1.subscribable =
      [{ aboveWindowTp with time_of_last_update_ns := 20 }] ∧
    (aeron_ipc_publication_check_untethered_subscriptions exampleContext
        abovePub 20).2 = [] := by
  have h := (check_untethered_active_window exampleContext abovePub aboveWindowTp 20
    rfl rfl rfl).1 (by decide)
  exact ⟨rfl, rfl, rfl, by decide, h.1, h.2⟩

/-- Claim C7 counterexample: cleaning the same position twice is not always
a no-op the second time: with `termLength = 64`, `cleanPosition = 0` and
`position = 80`, the first `cleanBuffer(80)` stops at the term boundary
(`cleanPosition` becomes 64) and the second `cleanBuffer(80)` cleans on into
the next term (`cleanPosition` becomes 80), so the state after the second
call differs from the state after the first. -/
theorem clean_buffer_not_idempotent_across_term :
    (aeron_ipc_publication_clean_buffer smallTermPub 80).clean_position = 64 ∧
    (aeron_ipc_publication_clean_buffer
        (aeron_ipc_publication_clean_buffer smallTermPub 80) 80).clean_position = 80 := by
  constructor
  · decide
  · decide

/-- Claim C7 (amended): `cleanBuffer` is idempotent whenever the requested
position lies within the term containing the clean position (that is, at
most `bytesLeftInTerm` past it): a call with `position ≤ cleanPosition`
changes nothing, and an effective in-term call advances `cleanPosition`
exactly to `position`, so the repeated call is a no-op.  (Across a term
boundary a single call only cleans up to the boundary, and repeating it
cleans further - see the counterexample.) -/
theorem clean_buffer_idempotent_within_term (publication : aeron_ipc_publication)
    (position : Int)
    (h : position ≤ publication.clean_position +
      ((publication.term_length - clean_term_offset publication : Nat) : Int)) :
    aeron_ipc_publication_clean_buffer
        (aeron_ipc_publication_clean_buffer publication position) position =
      aeron_ipc_publication_clean_buffer publication position := by
  by_cases hgt : position > publication.clean_position
  · have h1 := clean_buffer_clean_position_within publication position hgt h
    refine clean_buffer_no_op _ _ ?_
    rw [h1]
    exact lt_irrefl position
  · rw [clean_buffer_no_op publication position hgt]
    exact clean_buffer_no_op publication position hgt

/-- Witness for C7: cleaning to position 50 inside the 64-byte term twice is
the same as cleaning once. -/
theorem clean_buffer_idempotent_within_term_witness :
    (50 : Int) ≤ smallTermPub.clean_position +
      ((smallTermPub.term_length - clean_term_offset smallTermPub : Nat) : Int) ∧
    aeron_ipc_publication_clean_buffer
        (aeron_ipc_publication_clean_buffer smallTermPub 50) 50 =
      aeron_ipc_publication_clean_buffer smallTermPub 50 :=
  ⟨by decide, clean_buffer_idempotent_within_term smallTermPub 50 (by decide)⟩

/-- Claim C8: every `ReplayMerge::poll` call performs `doWork()` first - its
event trace is the `didWork` event followed only by fragment events - and
whenever no image has been acquired (the image after `doWork` is still null)
it returns 0 having consumed no fragments. -/
theorem poll_dowork_before_fragments (h : ReplayMergeHandlers)
    (imagePoll : RMImage → Int → Nat) (s : ReplayMergeData) (fragmentLimit : Int) :
    (ReplayMergePoll h imagePoll s fragmentLimit).2.2 =
      PollEvent.didWork ::
        List.replicate (ReplayMergePoll h imagePoll s fragmentLimit).2.1
          PollEvent.fragment ∧
    ((ReplayMergePoll h imagePoll s fragmentLimit).1.m_image = Option.none →
      (ReplayMergePoll h imagePoll s fragmentLimit).2.1 = 0 ∧
      (ReplayMergePoll h imagePoll s fragmentLimit).2.2 = [PollEvent.didWork]) := by
  simp only [ReplayMergePoll]
  cases hi : (ReplayMergeDoWork h s).1.m_image with
  | none =>
    simp only [hi]
    exact ⟨rfl, fun _ => ⟨trivial, trivial⟩⟩
  | some img =>
    simp only [hi]
    refine ⟨trivial, fun hc => ?_⟩
    cases hc

/-- Witness for C8: with idle handlers and a controller that has no image,
poll does the work step, consumes nothing and returns 0. -/
theorem poll_dowork_before_fragments_witness :
    (ReplayMergePoll idleHandlers idleImagePoll freshMerge 10).1.m_image = Option.none ∧
    (ReplayMergePoll idleHandlers idleImagePoll freshMerge 10).2.1 = 0 ∧
    (ReplayMergePoll idleHandlers idleImagePoll freshMerge 10).2.2 =
      [PollEvent.didWork] := by
  have h := (poll_dowork_before_fragments idleHandlers idleImagePoll freshMerge 10).2
    (by decide)
  exact ⟨by decide, h.1, h.2⟩

/-- Claim C9: `shouldStopAndRemoveReplay(pos)` holds iff the live
destination has been added, `nextTargetPosition - pos ≤ 0`
(= REPLAY_MERGE_REPLAY_REMOVE_THRESHOLD), and the image's active transport
count is at least 2; in particular it is false whenever the transport count
is exactly 1, whatever the position delta. -/
theorem shouldStopAndRemoveReplay_iff (s : ReplayMergeData) (position : Int)
    (img : RMImage) (h : s.m_image = Option.some img) :
    (shouldStopAndRemoveReplay s position = Option.some true ↔
      (s.m_isLiveAdded = true ∧ s.m_nextTargetPosition - position ≤ 0 ∧
        img.activeTransportCount ≥ 2)) ∧
    (img.activeTransportCount = 1 →
      shouldStopAndRemoveReplay s position = Option.some false) := by
  unfold shouldStopAndRemoveReplay REPLAY_MERGE_REPLAY_REMOVE_THRESHOLD
  rw [h]
  by_cases hl : s.m_isLiveAdded
  · by_cases hd : s.m_nextTargetPosition - position ≤ 0
    · simp [hl, hd]
      intro h1
      omega
    · simp [hl, hd]
  · simp [hl]

/-- Witness for C9: live added and position delta 0, but only one active
transport: the predicate is false. -/
theorem shouldStopAndRemoveReplay_iff_witness :
    oneTransportMerge.m_image = Option.some { activeTransportCount := 1 } ∧
    oneTransportMerge.m_isLiveAdded = true ∧
    oneTransportMerge.m_nextTargetPosition - 10050 ≤ 0 ∧
    shouldStopAndRemoveReplay oneTransportMerge 10050 = Option.some false := by
  have h := (shouldStopAndRemoveReplay_iff oneTransportMerge 10050
    { activeTransportCount := 1 } (by decide)).2 (by decide)
  exact ⟨by decide, by decide, by decide, h⟩
